import Mathlib

/-!
Verification of the AIStudyBuddy server (login.js).

This file gives a shallow embedding of the request handlers of the
AIStudyBuddy Express server: the Subject/Chapter/Note tree mutations
(POST /api/user/subjects, /api/user/chapters, /api/user/upload-note-file),
the AI-buddy chat endpoint with its Gemini path and rule-based fallback
ladder (/api/ai-buddy/chat, /api/ai-buddy/clear-chat), and the object-store
naming scheme used for uploaded files.

Modelling conventions:
- The mongoose document of the authenticated user is an `Option Profile`
  (none when no UserProfile document exists for the session uuid).
- Mongoose subdocument ObjectId generation is modelled by a fresh-id
  counter `nextId` carried in `DB`; `.id(x)` lookups become `List.find?`.
- External effects are passed in as explicit parameters: the readiness
  flags of the Gemini client and of GCS, the outcome of `blob.save`, the
  AI call as a function from the assembled prompt to an `Except` result,
  and `Date.now()` as a `Nat` of epoch milliseconds.
- JavaScript string truthiness (`!s`) on request fields corresponds to
  `s = ""`; absent ids are `Option.none`.
- Apostrophes inside response strings are written with the `\x27` escape.
-/

namespace StudyBuddy

/-! ## String primitives

JavaScript `trim`, `toLowerCase` and `substring(0, n)` are embedded as
character-list operations (the core `String` versions iterate over byte
positions and do not reduce inside the kernel). On the ASCII data the
server handles these agree with the JavaScript semantics. -/

/-- `s.trim()`: strip leading and trailing whitespace. -/
def strTrim (s : String) : String :=
  ⟨((s.data.dropWhile Char.isWhitespace).reverse.dropWhile Char.isWhitespace).reverse⟩

/-- `s.toLowerCase()`. -/
def strLower (s : String) : String :=
  ⟨s.data.map Char.toLower⟩

/-- `s.substring(0, n)`: the first `n` characters. -/
def strTake (s : String) (n : Nat) : String :=
  ⟨s.data.take n⟩

/-! ## Data model (mongoose schemas, login.js lines 176-203) -/

/-- A note subdocument: `noteSchema`. -/
structure Note where
  id : Nat
  title : String
  content : String
  type : String
  fileUrl : String
  mimeType : String
deriving DecidableEq

/-- A chapter subdocument: `chapterSchema`. -/
structure Chapter where
  id : Nat
  name : String
  notes : List Note
deriving DecidableEq

/-- A subject subdocument: `subjectSchema`. -/
structure Subject where
  id : Nat
  name : String
  chapters : List Chapter
deriving DecidableEq

/-- The per-user document: `userSchema` (subjects of the session user). -/
structure Profile where
  subjects : List Subject
deriving DecidableEq

/-- Database state visible to one authenticated session: the user document
(or none when it does not exist) plus a counter modelling ObjectId
generation for new subdocuments. -/
structure DB where
  profile : Option Profile
  nextId : Nat
deriving DecidableEq

/-- Error taxonomy of the HTTP handlers (status code plus message). -/
inductive Err where
  | validation (msg : String)
  | notFound (msg : String)
  | serviceUnavailable (msg : String)
  | internal (msg : String)
deriving DecidableEq

/-! ## POST /api/user/subjects (login.js lines 448-469) -/

/-- Handler for `POST /api/user/subjects`: rejects a name that is empty
after trimming, then `findOneAndUpdate` with `$push` of the new subject
and `upsert: true` (the user document is created if absent). Returns the
full updated subjects list. -/
def createSubject (db : DB) (name : String) : Except Err (List Subject) × DB :=
  if strTrim name = "" then
    (Except.error (Err.validation "Subject name required"), db)
  else
    let old := (db.profile.map Profile.subjects).getD []
    let subjects := old ++ [{ id := db.nextId, name := strTrim name, chapters := [] }]
    (Except.ok subjects, { profile := some { subjects := subjects }, nextId := db.nextId + 1 })

/-! ## POST /api/user/chapters (login.js lines 471-495) -/

/-- Handler for `POST /api/user/chapters`: 400 when subjectId or name is
missing, 404 when the user document or the subject is missing, otherwise
pushes the new chapter onto the subject and returns that subject's
updated chapters list. -/
def createChapter (db : DB) (subjectId : Option Nat) (name : String) :
    Except Err (List Chapter) × DB :=
  match subjectId with
  | none => (Except.error (Err.validation "subjectId and name required"), db)
  | some sid =>
    if name = "" then
      (Except.error (Err.validation "subjectId and name required"), db)
    else
      match db.profile with
      | none => (Except.error (Err.notFound "User not found"), db)
      | some p =>
        match p.subjects.find? (fun s => s.id == sid) with
        | none => (Except.error (Err.notFound "Subject not found"), db)
        | some subj =>
          let ch : Chapter := { id := db.nextId, name := strTrim name, notes := [] }
          let subjects := p.subjects.map fun s =>
            if s.id == sid then { s with chapters := s.chapters ++ [ch] } else s
          (Except.ok (subj.chapters ++ [ch]),
           { profile := some { subjects := subjects }, nextId := db.nextId + 1 })

/-! ## POST /api/user/upload-note-file (login.js lines 524-582) -/

/-- The multer file object: the fields of `req.file` the handler reads. -/
structure FileData where
  originalname : String
  mimetype : String
deriving DecidableEq

/-- Successful responses of the upload endpoint: 201 "Note saved" on the
no-file path, 201 "File uploaded" with the public URL on the file path. -/
inductive UploadOk where
  | noteSaved
  | fileUploaded (fileUrl : String)
deriving DecidableEq

/-- Object name for a stored upload (login.js line 565):
`${userUUID}/${subjectId}/${chapterId}/${Date.now()}_${file.originalname}`,
with the numeric parts rendered in decimal by template interpolation. -/
def gcsFileName (userUUID : String) (subjectId chapterId now : Nat)
    (originalname : String) : String :=
  userUUID ++ "/" ++ Nat.repr subjectId ++ "/" ++ Nat.repr chapterId ++ "/" ++
    Nat.repr now ++ "_" ++ originalname

/-- Public URL of a stored object (login.js line 572):
`https://storage.googleapis.com/${bucket.name}/${blob.name}`. -/
def publicUrl (bucketName objectName : String) : String :=
  "https://storage.googleapis.com/" ++ bucketName ++ "/" ++ objectName

/-- Append a note to the chapter `cid` of the subject `sid` inside the user
document (the in-place mutation performed through the mongoose
subdocument references followed by `user.save()`). -/
def pushNote (p : Profile) (sid cid : Nat) (n : Note) : Profile :=
  { subjects := p.subjects.map fun s =>
      if s.id == sid then
        { s with chapters := s.chapters.map fun c =>
            if c.id == cid then { c with notes := c.notes ++ [n] } else c }
      else s }

/-- Handler for `POST /api/user/upload-note-file`. Parameters mirror the
ambient globals and awaited effects: `gcpConfigured`, `storageSet`,
`bucketSet` are the truthiness of `gcpConfigured`, `storage` and `bucket`;
`saveOutcome` is the outcome of `blob.save` (an exception lands in the
outer catch, producing the 500 "Upload failed" response); `now` is
`Date.now()`. The `makePublic` call has its errors swallowed by the
source and is not modelled. -/
def uploadNoteFile (db : DB) (userUUID : String)
    (gcpConfigured storageSet bucketSet : Bool) (bucketName : String)
    (saveOutcome : Except String Unit)
    (subjectId chapterId : Nat) (title type content : String)
    (file : Option FileData) (now : Nat) : Except Err UploadOk × DB :=
  if file.isNone && title == "" then
    (Except.error (Err.validation "Title or file required"), db)
  else
    match db.profile with
    | none => (Except.error (Err.notFound "User not found"), db)
    | some p =>
      match p.subjects.find? (fun s => s.id == subjectId) with
      | none => (Except.error (Err.notFound "Subject not found"), db)
      | some subj =>
        match subj.chapters.find? (fun c => c.id == chapterId) with
        | none => (Except.error (Err.notFound "Chapter not found"), db)
        | some _ =>
          match file with
          | none =>
            let n : Note := { id := db.nextId, title := strTrim title, type := type,
                              content := content, fileUrl := "", mimeType := "" }
            (Except.ok UploadOk.noteSaved,
             { profile := some (pushNote p subjectId chapterId n),
               nextId := db.nextId + 1 })
          | some f =>
            if !(gcpConfigured && storageSet && bucketSet) then
              (Except.error (Err.serviceUnavailable "Cloud storage not configured"), db)
            else
              let objectName := gcsFileName userUUID subjectId chapterId now f.originalname
              match saveOutcome with
              | Except.error e => (Except.error (Err.internal ("Upload failed: " ++ e)), db)
              | Except.ok _ =>
                let url := publicUrl bucketName objectName
                let n : Note := { id := db.nextId,
                                  title := if title == "" then f.originalname else title,
                                  type := type, content := content,
                                  fileUrl := url, mimeType := f.mimetype }
                (Except.ok (UploadOk.fileUploaded url),
                 { profile := some (pushNote p subjectId chapterId n),
                   nextId := db.nextId + 1 })

/-! ## AI buddy chat (login.js lines 317-422) -/

/-- Chat roles stored in `req.session.chatHistory`. -/
inductive Role where
  | user
  | assistant
deriving DecidableEq

/-- One entry of the session chat history. -/
structure ChatMsg where
  role : Role
  content : String
deriving DecidableEq

/-- Substring containment on character lists, the semantics of the
JavaScript `String.prototype.includes` used by the fallback predicates. -/
def includesL : List Char → List Char → Bool
  | hay, needle =>
    if needle.isPrefixOf hay then true
    else
      match hay with
      | [] => false
      | _ :: t => includesL t needle

/-- `s.includes(pat)` on strings. -/
def strIncludes (s pat : String) : Bool :=
  includesL s.data pat.data

/-- Greeting fallback response (login.js line 374). -/
def greetingResponse : String :=
  "Hi there! I\x27m your AI study buddy! I\x27m here to help you learn and understand your materials better. What would you like to study today?"

/-- Help fallback response (login.js line 377). -/
def helpResponse : String :=
  "I can help you in many ways! I can explain concepts, quiz you on topics, break down complex ideas, and provide study tips. Just ask me anything about your subjects!"

/-- Explanation fallback response (login.js line 380); interpolates whether
a notes context was supplied. -/
def explainResponse (hasCtx : Bool) : String :=
  "Great question! " ++ (if hasCtx then "Based on your notes, " else "") ++
    "Let me break this down for you. This concept is fundamental - once you grasp it, everything becomes clearer! Would you like me to go deeper into any specific aspect?"

/-- Quiz fallback response (login.js line 383). -/
def quizResponse : String :=
  "Excellent! Testing yourself is one of the best ways to learn. Can you explain the main concept from your recent notes in your own words? This helps reinforce understanding!"

/-- Difficulty fallback response (login.js line 386). -/
def difficultyResponse : String :=
  "Don\x27t worry, that\x27s completely normal! Let\x27s break this down into smaller pieces. Which specific part is confusing? We\x27ll tackle it step by step together!"

/-- Exam-preparation fallback response (login.js line 389). -/
def examResponse : String :=
  "Preparing for exams? Smart! Review regularly, practice explaining concepts aloud, and test yourself frequently. Focus on understanding, not memorizing. You\x27ve got this!"

/-- Thanks fallback response (login.js line 392). -/
def thanksResponse : String :=
  "You\x27re very welcome! I\x27m always here to help you succeed. Keep up the great work! Is there anything else you\x27d like to learn about?"

/-- Default fallback response (login.js line 395); interpolates whether a
notes context was supplied. -/
def defaultResponse (hasCtx : Bool) : String :=
  "That\x27s an interesting question! " ++
    (if hasCtx then "Looking at your study materials, " else "") ++
    "The best approach is to break it down systematically. Can you tell me more about what you\x27d like to explore? I\x27m here to help!"

/-- The rule-based fallback of the chat endpoint (login.js lines 368-397):
the lower-cased message runs down an if-else ladder of keyword containment
predicates; the first matching branch produces the response. -/
def fallbackResponse (message notesContext : String) : String :=
  let lowerMsg := strLower message
  if strIncludes lowerMsg "hello" || strIncludes lowerMsg "hi" || strIncludes lowerMsg "hey" then
    greetingResponse
  else if strIncludes lowerMsg "help" || strIncludes lowerMsg "what can you" then
    helpResponse
  else if strIncludes lowerMsg "explain" || strIncludes lowerMsg "what is" then
    explainResponse (notesContext != "")
  else if strIncludes lowerMsg "quiz" || strIncludes lowerMsg "test" then
    quizResponse
  else if strIncludes lowerMsg "difficult" || strIncludes lowerMsg "hard" ||
      strIncludes lowerMsg "don\x27t understand" then
    difficultyResponse
  else if strIncludes lowerMsg "exam" || strIncludes lowerMsg "preparation" then
    examResponse
  else if strIncludes lowerMsg "thank" then
    thanksResponse
  else
    defaultResponse (notesContext != "")

/-- Persona preamble of the Gemini prompt (login.js line 338). -/
def personaPreamble : String :=
  "You are a friendly AI study buddy. Be encouraging and concise (2-3 sentences).\n\n"

/-- Prompt label of a history entry (login.js line 349). -/
def roleLabel : Role → String
  | Role.user => "Student"
  | Role.assistant => "AI"

/-- One line of the recent-chat block of the prompt. -/
def historyLine (m : ChatMsg) : String :=
  roleLabel m.role ++ ": " ++ m.content ++ "\n"

/-- `history.slice(-6)`: the most recent six entries. -/
def recentSlice (h : List ChatMsg) : List ChatMsg :=
  h.drop (h.length - 6)

/-- Prompt assembly of the Gemini path (login.js lines 338-353): persona
preamble, then the notes context truncated with `substring(0, 300)` when
it trims non-empty, then the recent-chat block when the recent history is
non-empty, then the new message. -/
def buildPrompt (notesContext : String) (history : List ChatMsg) (message : String) : String :=
  let p1 := personaPreamble
  let p2 := if strTrim notesContext ≠ "" then
      p1 ++ "Student\x27s materials:\n" ++ strTake notesContext 300 ++ "\n\n"
    else p1
  let recent := recentSlice history
  let p3 := if recent.length > 0 then
      p2 ++ "Recent chat:\n" ++ String.join (recent.map historyLine)
    else p2
  p3 ++ "Student: " ++ message ++ "\nAI Buddy:"

/-- History truncation after the two appends (login.js lines 403-405):
`slice(-10)` when the history exceeds ten entries. -/
def truncHistory (h : List ChatMsg) : List ChatMsg :=
  if h.length > 10 then h.drop (h.length - 10) else h

/-- Handler for `POST /api/ai-buddy/chat` for an authenticated session.
`geminiReady` and `modelSet` are the truthiness of the ambient globals;
`ai` is the awaited Gemini call, mapping the assembled prompt to either
its text output or a thrown error. Returns the HTTP outcome and the new
session history. -/
def chat (geminiReady modelSet : Bool) (ai : String → Except String String)
    (history : List ChatMsg) (message notesContext : String) :
    Except Err String × List ChatMsg :=
  if strTrim message = "" then
    (Except.error (Err.validation "Message is required"), history)
  else
    let aiResponse : Option String :=
      if geminiReady && modelSet then
        match ai (buildPrompt notesContext history message) with
        | Except.ok t => some t
        | Except.error _ => none
      else none
    let response :=
      match aiResponse with
      | some t => if t = "" then fallbackResponse message notesContext else t
      | none => fallbackResponse message notesContext
    let h1 := history ++ [{ role := Role.user, content := message },
                          { role := Role.assistant, content := response }]
    (Except.ok response, truncHistory h1)

/-- Handler for `POST /api/ai-buddy/clear-chat`: resets the session
history. -/
def clearChat : List ChatMsg := []

/-- One session-level chat operation, for stating history invariants over
arbitrary operation sequences. -/
inductive SessionOp where
  | chatOp (geminiReady modelSet : Bool) (ai : String → Except String String)
      (message notesContext : String)
  | clearOp

/-- Effect of one operation on the session chat history. -/
def applyOp (h : List ChatMsg) : SessionOp → List ChatMsg
  | SessionOp.chatOp g m ai msg ctx => (chat g m ai h msg ctx).2
  | SessionOp.clearOp => clearChat

/-! ## Spec-side characterizations

The following definitions restate parts of the specification in its own
words; they are compared with the handler definitions above, which were
transcribed from the source. -/

/-- The fallback dispatch as the specification describes it: an ordered
list of keyword predicates paired with their responses. -/
def fallbackLadder (hasCtx : Bool) : List ((String → Bool) × String) :=
  [ (fun l => strIncludes l "hello" || strIncludes l "hi" || strIncludes l "hey",
      greetingResponse),
    (fun l => strIncludes l "help" || strIncludes l "what can you", helpResponse),
    (fun l => strIncludes l "explain" || strIncludes l "what is", explainResponse hasCtx),
    (fun l => strIncludes l "quiz" || strIncludes l "test", quizResponse),
    (fun l => strIncludes l "difficult" || strIncludes l "hard" ||
        strIncludes l "don\x27t understand", difficultyResponse),
    (fun l => strIncludes l "exam" || strIncludes l "preparation", examResponse),
    (fun l => strIncludes l "thank", thanksResponse) ]

/-- Ordered first-match dispatch over a predicate/response ladder: the
first predicate accepting the message wins; the default fires when none
matches. -/
def firstMatch (l : String) : List ((String → Bool) × String) → String → String
  | [], dflt => dflt
  | (p, r) :: rest, dflt => if p l then r else firstMatch l rest dflt

/-- The prompt as the specification describes it: a fixed persona
preamble, the notes context truncated to its first 300 characters (when
it trims non-empty), the most recent six history entries each formatted
as a role label, a colon and the content, and the new message. -/
def promptSpec (notesContext : String) (history : List ChatMsg) (message : String) : String :=
  personaPreamble ++
    (if strTrim notesContext ≠ "" then
      "Student\x27s materials:\n" ++ strTake notesContext 300 ++ "\n\n"
    else "") ++
    (if (recentSlice history).length > 0 then
      "Recent chat:\n" ++ String.join ((recentSlice history).map historyLine)
    else "") ++
    ("Student: " ++ message ++ "\nAI Buddy:")

/-! ## Decimal rendering

Reference decimal-digit list of a natural number, used to reason about
the `Nat.repr` occurrences inside `gcsFileName` (template interpolation
of numbers renders them in decimal). -/

/-- Decimal digits of `n`, most significant first. -/
def specDigits (n : Nat) : List Char :=
  if _h : n < 10 then [Nat.digitChar n]
  else specDigits (n / 10) ++ [Nat.digitChar (n % 10)]
termination_by n
decreasing_by exact Nat.div_lt_self (by omega) (by omega)

/-! ## Claims about the note tree -/

/-- Claim C4: createSubject fails with ValidationError for a name that is
empty or whitespace after trimming; for a user with no profile it creates
the UserProfile alongside the subject (upsert) and returns the full
updated subjects list; calling createSubject with "Math" twice yields two
distinct Subjects with distinct ids and the same name (duplicates
allowed, no idempotence). -/
theorem claim_C4 (db : DB) (name : String) :
    (strTrim name = "" →
      createSubject db name = (Except.error (Err.validation "Subject name required"), db))
    ∧ (strTrim name ≠ "" →
      createSubject db name =
        (Except.ok ((db.profile.map Profile.subjects).getD []
            ++ [{ id := db.nextId, name := strTrim name, chapters := [] }]),
         { profile := some { subjects := (db.profile.map Profile.subjects).getD []
              ++ [{ id := db.nextId, name := strTrim name, chapters := [] }] },
           nextId := db.nextId + 1 }))
    ∧ (db.profile = none → strTrim name ≠ "" →
      (createSubject db name).2.profile =
        some { subjects := [{ id := db.nextId, name := strTrim name, chapters := [] }] })
    ∧ ((createSubject (createSubject db "Math").2 "Math").1 =
        Except.ok ((db.profile.map Profile.subjects).getD []
          ++ [{ id := db.nextId, name := "Math", chapters := [] },
              { id := db.nextId + 1, name := "Math", chapters := [] }])
        ∧ db.nextId ≠ db.nextId + 1) := by
  refine ⟨fun h => by simp [createSubject, h], fun h => by simp [createSubject, h], ?_, ?_, ?_⟩
  · intro hp h
    simp [createSubject, h, hp]
  · have hm : strTrim "Math" = "Math" := rfl
    simp [createSubject, hm]
  · omega

/-- Claim C4 witness: concrete runs of createSubject on an empty database,
with a whitespace name, a fresh profile, and a duplicated "Math". -/
theorem claim_C4_witness :
    (strTrim "   " = "" ∧
      createSubject ⟨none, 0⟩ "   " =
        (Except.error (Err.validation "Subject name required"), ⟨none, 0⟩))
    ∧ (strTrim "Math" ≠ "" ∧
      (createSubject ⟨none, 0⟩ "Math").2.profile =
        some { subjects := [{ id := 0, name := "Math", chapters := [] }] })
    ∧ (createSubject (createSubject ⟨none, 0⟩ "Math").2 "Math").1 =
        Except.ok [{ id := 0, name := "Math", chapters := [] },
                   { id := 1, name := "Math", chapters := [] }] := by
  refine ⟨⟨by decide, (claim_C4 ⟨none, 0⟩ "   ").1 (by decide)⟩,
          ⟨by decide, (claim_C4 ⟨none, 0⟩ "Math").2.2.1 rfl (by decide)⟩, ?_⟩
  have h := (claim_C4 ⟨none, 0⟩ "Math").2.2.2.1
  simpa using h

/-- Claim C6: createChapter fails with NotFound if the user has no profile
or if subjectId does not match any Subject owned by that user, fails with
ValidationError if the name is missing, and otherwise appends the chapter
and returns the updated chapters list of exactly that subject. -/
theorem claim_C6 (db : DB) (sid : Nat) (name : String) :
    (∀ osid, createChapter db osid "" =
      (Except.error (Err.validation "subjectId and name required"), db))
    ∧ (name ≠ "" → db.profile = none →
      createChapter db (some sid) name = (Except.error (Err.notFound "User not found"), db))
    ∧ (∀ p, name ≠ "" → db.profile = some p →
      p.subjects.find? (fun s => s.id == sid) = none →
      createChapter db (some sid) name = (Except.error (Err.notFound "Subject not found"), db))
    ∧ (∀ p subj, name ≠ "" → db.profile = some p →
      p.subjects.find? (fun s => s.id == sid) = some subj →
      createChapter db (some sid) name =
        (Except.ok (subj.chapters ++ [{ id := db.nextId, name := strTrim name, notes := [] }]),
         { profile := some { subjects := p.subjects.map fun s =>
              if s.id == sid then
                { s with chapters :=
                    s.chapters ++ [{ id := db.nextId, name := strTrim name, notes := [] }] }
              else s },
           nextId := db.nextId + 1 })) := by
  refine ⟨?_, ?_, ?_, ?_⟩
  · intro osid
    cases osid <;> simp [createChapter]
  · intro h hp
    simp [createChapter, h, hp]
  · intro p h hp hf
    simp [createChapter, h, hp, hf]
  · intro p subj h hp hf
    simp [createChapter, h, hp, hf]

/-- Claim C6 witness: concrete runs on a database whose profile owns one
subject with id 1. -/
theorem claim_C6_witness :
    (createChapter ⟨some { subjects := [{ id := 1, name := "Bio", chapters := [] }] }, 5⟩
        (some 1) "" =
      (Except.error (Err.validation "subjectId and name required"),
       ⟨some { subjects := [{ id := 1, name := "Bio", chapters := [] }] }, 5⟩))
    ∧ (createChapter ⟨none, 5⟩ (some 1) "Cells" =
      (Except.error (Err.notFound "User not found"), ⟨none, 5⟩))
    ∧ (createChapter ⟨some { subjects := [{ id := 1, name := "Bio", chapters := [] }] }, 5⟩
        (some 2) "Cells" =
      (Except.error (Err.notFound "Subject not found"),
       ⟨some { subjects := [{ id := 1, name := "Bio", chapters := [] }] }, 5⟩))
    ∧ (createChapter ⟨some { subjects := [{ id := 1, name := "Bio", chapters := [] }] }, 5⟩
        (some 1) "Cells" =
      (Except.ok [{ id := 5, name := "Cells", notes := [] }],
       ⟨some { subjects :=
                 [{ id := 1, name := "Bio",
                    chapters := [{ id := 5, name := "Cells", notes := [] }] }] }, 6⟩)) := by
  refine ⟨(claim_C6 _ 1 "").1 (some 1), (claim_C6 _ 1 "Cells").2.1 (by decide) rfl, ?_, ?_⟩
  · exact (claim_C6 _ 2 "Cells").2.2.1 _ (by decide) rfl (by decide)
  · have h := (claim_C6 ⟨some { subjects := [{ id := 1, name := "Bio", chapters := [] }] }, 5⟩
      1 "Cells").2.2.2 _ { id := 1, name := "Bio", chapters := [] } (by decide) rfl (by decide)
    simpa using h

/-- Claim C1: for a note-creation request through the upload endpoint that
supplies a file and passes the lookup guards, an unconfigured or
unavailable object store fails the request with ServiceUnavailable and
leaves the database (hence the chapter's notes list) unchanged; a failing
object-store write fails the request and writes no partial Note; the
Note carrying fileUrl and mimeType is appended only when the store write
succeeded. -/
theorem claim_C1 (db : DB) (p : Profile) (subj : Subject) (chap : Chapter)
    (uuid bName : String) (f : FileData) (g s b : Bool)
    (sid cid : Nat) (title ty ct : String) (now : Nat)
    (hp : db.profile = some p)
    (hs : p.subjects.find? (fun x => x.id == sid) = some subj)
    (hc : subj.chapters.find? (fun c => c.id == cid) = some chap) :
    ((g && s && b) = false → ∀ save,
      uploadNoteFile db uuid g s b bName save sid cid title ty ct (some f) now =
        (Except.error (Err.serviceUnavailable "Cloud storage not configured"), db))
    ∧ ((g && s && b) = true → ∀ e,
      uploadNoteFile db uuid g s b bName (Except.error e) sid cid title ty ct (some f) now =
        (Except.error (Err.internal ("Upload failed: " ++ e)), db))
    ∧ ((g && s && b) = true →
      uploadNoteFile db uuid g s b bName (Except.ok ()) sid cid title ty ct (some f) now =
        (Except.ok (UploadOk.fileUploaded
            (publicUrl bName (gcsFileName uuid sid cid now f.originalname))),
         { profile := some (pushNote p sid cid
              { id := db.nextId,
                title := if title == "" then f.originalname else title,
                content := ct, type := ty,
                fileUrl := publicUrl bName (gcsFileName uuid sid cid now f.originalname),
                mimeType := f.mimetype }),
           nextId := db.nextId + 1 })) := by
  refine ⟨?_, ?_, ?_⟩
  · intro hg save
    simp [uploadNoteFile, hp, hs, hc, hg]
  · intro hg e
    simp [uploadNoteFile, hp, hs, hc, hg]
  · intro hg
    simp [uploadNoteFile, hp, hs, hc, hg]

/-- Claim C1 witness: on a concrete database owning subject 1 with chapter
2, a file upload with the store unconfigured fails with the
ServiceUnavailable response and leaves the database unchanged. -/
theorem claim_C1_witness :
    uploadNoteFile
        ⟨some { subjects := [{ id := 1, name := "Bio",
                               chapters := [{ id := 2, name := "Cells", notes := [] }] }] }, 7⟩
        "u1" false false false "bkt" (Except.ok ()) 1 2 "t" "notes" ""
        (some { originalname := "f.txt", mimetype := "text/plain" }) 99 =
      (Except.error (Err.serviceUnavailable "Cloud storage not configured"),
       ⟨some { subjects := [{ id := 1, name := "Bio",
                              chapters := [{ id := 2, name := "Cells", notes := [] }] }] }, 7⟩) :=
  (claim_C1 _ _
    { id := 1, name := "Bio", chapters := [{ id := 2, name := "Cells", notes := [] }] }
    { id := 2, name := "Cells", notes := [] }
    "u1" "bkt" { originalname := "f.txt", mimetype := "text/plain" } false false false
    1 2 "t" "notes" "" 99 rfl (by decide) (by decide)).1 rfl (Except.ok ())

/-- Claim C10: a note-creation request through the upload endpoint that
supplies a title but no file succeeds with 201 regardless of the object
store flags (the configured check runs only when a file is present), and
appends a Note whose fileUrl and mimeType are empty. -/
theorem claim_C10 (db : DB) (p : Profile) (subj : Subject) (chap : Chapter)
    (uuid bName : String) (save : Except String Unit) (g s b : Bool)
    (sid cid : Nat) (title ty ct : String) (now : Nat)
    (ht : title ≠ "") (hp : db.profile = some p)
    (hs : p.subjects.find? (fun x => x.id == sid) = some subj)
    (hc : subj.chapters.find? (fun c => c.id == cid) = some chap) :
    uploadNoteFile db uuid g s b bName save sid cid title ty ct none now =
      (Except.ok UploadOk.noteSaved,
       { profile := some (pushNote p sid cid
            { id := db.nextId, title := strTrim title, content := ct, type := ty,
              fileUrl := "", mimeType := "" }),
         nextId := db.nextId + 1 }) := by
  simp [uploadNoteFile, hp, hs, hc, ht]

/-- Claim C10 witness: with the store entirely unconfigured, a title-only
request appends the note with empty fileUrl and mimeType and returns the
201 "Note saved" response. -/
theorem claim_C10_witness :
    uploadNoteFile
        ⟨some { subjects := [{ id := 1, name := "Bio",
                               chapters := [{ id := 2, name := "Cells", notes := [] }] }] }, 7⟩
        "u1" false false false "bkt" (Except.ok ()) 1 2 "My note" "notes" "body" none 99 =
      (Except.ok UploadOk.noteSaved,
       ⟨some { subjects :=
                 [{ id := 1, name := "Bio",
                    chapters :=
                      [{ id := 2, name := "Cells",
                         notes := [{ id := 7, title := "My note", content := "body",
                                     type := "notes", fileUrl := "", mimeType := "" }] }] }] },
        8⟩) := by
  have h := claim_C10
    ⟨some { subjects := [{ id := 1, name := "Bio",
                           chapters := [{ id := 2, name := "Cells", notes := [] }] }] }, 7⟩
    _ { id := 1, name := "Bio", chapters := [{ id := 2, name := "Cells", notes := [] }] }
    { id := 2, name := "Cells", notes := [] }
    "u1" "bkt" (Except.ok ()) false false false 1 2 "My note" "notes" "body" 99
    (by decide) rfl (by decide) (by decide)
  simpa [pushNote] using h

/-! ## Claims about the chat assembler -/

/-- Length after truncation: the minimum of the raw length and ten. -/
theorem truncHistory_length (l : List ChatMsg) :
    (truncHistory l).length = min l.length 10 := by
  simp only [truncHistory]
  split <;> rename_i h
  · simp only [List.length_drop]
    omega
  · omega

/-- A chat call with a non-empty message returns 200 with some response
and appends the user message and that response before truncating. -/
theorem chat_ok (g m : Bool) (ai : String → Except String String)
    (h : List ChatMsg) (msg ctx : String) (hmsg : strTrim msg ≠ "") :
    ∃ resp, chat g m ai h msg ctx =
      (Except.ok resp,
       truncHistory (h ++ [{ role := Role.user, content := msg },
                           { role := Role.assistant, content := resp }])) := by
  unfold chat
  rw [if_neg hmsg]
  exact ⟨_, rfl⟩

/-- Histories never exceed ten entries after any single operation applied
to a history within the bound. -/
theorem applyOp_length_le (h : List ChatMsg) (op : SessionOp) (hh : h.length ≤ 10) :
    (applyOp h op).length ≤ 10 := by
  cases op with
  | clearOp => simp [applyOp, clearChat]
  | chatOp g m ai msg ctx =>
    simp only [applyOp]
    by_cases hmsg : strTrim msg = ""
    · simp [chat, hmsg, hh]
    · obtain ⟨resp, hr⟩ := chat_ok g m ai h msg ctx hmsg
      rw [hr]
      simp [truncHistory_length]

/-- Claim C2: with the AI client unavailable, chat dispatches the
lower-cased message through the ordered keyword ladder (greeting, help,
explanation, quiz, difficulty, exam-prep, thanks, default), first match
winning; chatting "hello" yields the greeting fallback, "Can you quiz
me?" the quiz fallback, and "I need help with a quiz" the help branch
rather than the quiz branch. The unavailable-client chat response is the
fallback, and the fallback equals the ordered first-match dispatch. -/
theorem claim_C2 :
    (∀ (ai : String → Except String String) (h : List ChatMsg) (msg ctx : String),
      strTrim msg ≠ "" →
      (chat false false ai h msg ctx).1 = Except.ok (fallbackResponse msg ctx))
    ∧ (∀ message notesContext, fallbackResponse message notesContext =
      firstMatch (strLower message) (fallbackLadder (notesContext != ""))
        (defaultResponse (notesContext != "")))
    ∧ fallbackResponse "hello" "" = greetingResponse
    ∧ fallbackResponse "Can you quiz me?" "" = quizResponse
    ∧ fallbackResponse "I need help with a quiz" "" = helpResponse := by
  refine ⟨?_, fun message notesContext => rfl, rfl, rfl, rfl⟩
  intro ai h msg ctx hmsg
  unfold chat
  rw [if_neg hmsg]
  rfl

/-- Claim C2 witness: the unavailable-client dispatch at the concrete
message "hello". -/
theorem claim_C2_witness :
    strTrim "hello" ≠ "" ∧
    (chat false false (fun _ => Except.error "down") [] "hello" "").1 =
      Except.ok (fallbackResponse "hello" "") :=
  ⟨by decide, claim_C2.1 (fun _ => Except.error "down") [] "hello" "" (by decide)⟩

/-- Claim C3: over any sequence of chat operations started from the empty
session history, the history holds at most ten entries; clearChat resets
it to empty; each successful chat truncates the two appended entries to
the most recent ten; and clearChat followed by exactly one exchange
leaves exactly two entries. -/
theorem claim_C3 :
    (∀ ops : List SessionOp, (ops.foldl applyOp []).length ≤ 10)
    ∧ (∀ h : List ChatMsg, applyOp h SessionOp.clearOp = [])
    ∧ (∀ (g m : Bool) (ai : String → Except String String) (h : List ChatMsg) (msg ctx : String),
      strTrim msg ≠ "" →
      ∃ resp, (chat g m ai h msg ctx).2 =
        truncHistory (h ++ [{ role := Role.user, content := msg },
                            { role := Role.assistant, content := resp }]))
    ∧ (∀ (g m : Bool) (ai : String → Except String String) (h : List ChatMsg) (msg ctx : String),
      strTrim msg ≠ "" →
      (applyOp (applyOp h SessionOp.clearOp)
        (SessionOp.chatOp g m ai msg ctx)).length = 2) := by
  refine ⟨?_, fun h => rfl, ?_, ?_⟩
  · intro ops
    suffices hgen : ∀ h : List ChatMsg, h.length ≤ 10 → (ops.foldl applyOp h).length ≤ 10 by
      exact hgen [] (by simp)
    induction ops with
    | nil => intro h hh; simpa using hh
    | cons op rest ih =>
      intro h hh
      exact ih (applyOp h op) (applyOp_length_le h op hh)
  · intro g m ai h msg ctx hmsg
    obtain ⟨resp, hr⟩ := chat_ok g m ai h msg ctx hmsg
    exact ⟨resp, by rw [hr]⟩
  · intro g m ai h msg ctx hmsg
    simp only [applyOp, clearChat]
    obtain ⟨resp, hr⟩ := chat_ok g m ai [] msg ctx hmsg
    rw [hr, truncHistory_length]
    simp

/-- Claim C3 witness: a session that accumulated twelve entries, then
clearChat, then one exchange, ends with exactly two entries. -/
theorem claim_C3_witness :
    strTrim "hello" ≠ "" ∧
    (applyOp (applyOp (List.replicate 12 { role := Role.user, content := "x" })
        SessionOp.clearOp)
      (SessionOp.chatOp false false (fun _ => Except.error "down") "hello" "")).length = 2 :=
  ⟨by decide,
   claim_C3.2.2.2 false false (fun _ => Except.error "down")
     (List.replicate 12 { role := Role.user, content := "x" }) "hello" "" (by decide)⟩

/-- Claim C8: for a non-empty chat message, an AI-client failure never
fails the request: the chat always returns 200 with some response, the
user message and the produced response are both appended to history
regardless of the path, and when the configured AI call raises, the
produced response is the local fallback. -/
theorem claim_C8 (g m : Bool) (ai : String → Except String String)
    (h : List ChatMsg) (msg ctx : String) (hmsg : strTrim msg ≠ "") :
    (∃ resp, chat g m ai h msg ctx =
      (Except.ok resp,
       truncHistory (h ++ [{ role := Role.user, content := msg },
                           { role := Role.assistant, content := resp }])))
    ∧ (∀ e, (g && m) = true → ai (buildPrompt ctx h msg) = Except.error e →
      chat g m ai h msg ctx =
        (Except.ok (fallbackResponse msg ctx),
         truncHistory (h ++ [{ role := Role.user, content := msg },
            { role := Role.assistant, content := fallbackResponse msg ctx }]))) := by
  refine ⟨chat_ok g m ai h msg ctx hmsg, ?_⟩
  intro e hgm hai
  unfold chat
  rw [if_neg hmsg]
  simp [hgm, hai]

/-- Claim C8 witness: a configured AI client that raises is recovered by
the fallback, and both entries land in the history. -/
theorem claim_C8_witness :
    strTrim "What is recursion?" ≠ "" ∧
    chat true true (fun _ => Except.error "boom") [] "What is recursion?" "" =
      (Except.ok (fallbackResponse "What is recursion?" ""),
       truncHistory [{ role := Role.user, content := "What is recursion?" },
                     { role := Role.assistant,
                       content := fallbackResponse "What is recursion?" "" }]) := by
  refine ⟨by decide, ?_⟩
  have h := (claim_C8 true true (fun _ => Except.error "boom") [] "What is recursion?" ""
    (by decide)).2 "boom" rfl rfl
  simpa using h

/-- Claim C9: the greeting predicate is substring containment, so with the
AI client unavailable any message whose lower-cased text contains "hi"
anywhere (also inside words such as "this" or "think"), "hello", or
"hey" gets the greeting fallback, ahead of all later branches. -/
theorem claim_C9 (msg ctx : String) :
    (strIncludes (strLower msg) "hi" = true ∨ strIncludes (strLower msg) "hello" = true ∨
      strIncludes (strLower msg) "hey" = true) →
    fallbackResponse msg ctx = greetingResponse := by
  intro h
  unfold fallbackResponse
  rcases h with h | h | h <;> simp [h]

/-- Claim C9 witness: the word "this" contains "hi", so it triggers the
greeting fallback. -/
theorem claim_C9_witness :
    strIncludes (strLower "this") "hi" = true ∧
    fallbackResponse "this" "" = greetingResponse :=
  ⟨rfl, claim_C9 "this" "" (Or.inl rfl)⟩

/-- Claim C5 (amended): with the AI client configured and reachable, chat
assembles its prompt from the fixed persona preamble, the caller-supplied
notesContext truncated to its first 300 characters, the most recent six
history entries each formatted as a role label, a colon and the content,
and the new message; on success it returns the AI clients text output
provided that output is non-empty (an empty output is treated like a
failure and answered by the fallback). -/
theorem claim_C5 (ai : String → Except String String) (h : List ChatMsg)
    (msg ctx t : String) (hmsg : strTrim msg ≠ "")
    (hai : ai (buildPrompt ctx h msg) = Except.ok t) (ht : t ≠ "") :
    (chat true true ai h msg ctx).1 = Except.ok t
    ∧ buildPrompt ctx h msg = promptSpec ctx h msg := by
  constructor
  · unfold chat
    rw [if_neg hmsg]
    simp [hai, ht]
  · unfold buildPrompt promptSpec
    by_cases hc : strTrim ctx ≠ "" <;> by_cases hr : (recentSlice h).length > 0 <;>
      simp [hc, hr, String.append_assoc] <;> rfl

/-- Claim C5 counterexample: the AI call succeeds with the empty string as
its text output, yet chat does not return that output — the falsy check
on the response routes the empty success into the fallback, so the
greeting fallback is returned instead. -/
theorem claim_C5_counterexample :
    (chat true true (fun _ => Except.ok "") [] "hello" "").1 = Except.ok greetingResponse
    ∧ greetingResponse ≠ "" :=
  ⟨rfl, by decide⟩

/-- Claim C5 witness: a configured client answering with non-empty text
has that text returned, at a concrete prompt containing context and
history. -/
theorem claim_C5_witness :
    strTrim "What is mitosis?" ≠ "" ∧
    (chat true true (fun _ => Except.ok "Cell division!")
      [{ role := Role.user, content := "hi" }] "What is mitosis?" "Bio notes").1 =
      Except.ok "Cell division!" :=
  ⟨by decide,
   (claim_C5 (fun _ => Except.ok "Cell division!") [{ role := Role.user, content := "hi" }]
     "What is mitosis?" "Bio notes" "Cell division!" (by decide) rfl (by decide)).1⟩

/-! ## Claims about the object-store naming scheme -/

/-- Digit characters are injective below the base ten. -/
theorem digitChar_inj :
    ∀ a, a < 10 → ∀ b, b < 10 → Nat.digitChar a = Nat.digitChar b → a = b := by
  decide

/-- Digit characters below ten satisfy isDigit. -/
theorem digitChar_isDigit : ∀ a, a < 10 → (Nat.digitChar a).isDigit = true := by
  decide

/-- The decimal digit list is never empty. -/
theorem specDigits_ne_nil (n : Nat) : specDigits n ≠ [] := by
  unfold specDigits
  split <;> simp

/-- Every character of the decimal digit list is a digit. -/
theorem specDigits_isDigit : ∀ n : Nat, ∀ c ∈ specDigits n, c.isDigit = true := by
  intro n
  induction n using Nat.strong_induction_on with
  | _ n ih =>
    intro c hc
    unfold specDigits at hc
    split at hc <;> rename_i hn
    · simp only [List.mem_singleton] at hc
      subst hc
      exact digitChar_isDigit n hn
    · rcases List.mem_append.mp hc with h | h
      · exact ih (n / 10) (Nat.div_lt_self (by omega) (by omega)) c h
      · simp only [List.mem_singleton] at h
        subst h
        exact digitChar_isDigit (n % 10) (Nat.mod_lt n (by omega))

/-- The decimal digit list determines the number. -/
theorem specDigits_inj : ∀ m n : Nat, specDigits m = specDigits n → m = n := by
  intro m
  induction m using Nat.strong_induction_on with
  | _ m ih =>
    intro n hmn
    unfold specDigits at hmn
    split at hmn <;> split at hmn <;> rename_i hm hn
    · simp only [List.cons.injEq] at hmn
      exact digitChar_inj m hm n hn hmn.1
    · have hlen := congrArg List.length hmn
      simp only [List.length_singleton, List.length_append] at hlen
      have := specDigits_ne_nil (n / 10)
      cases hsd : specDigits (n / 10) with
      | nil => exact absurd hsd this
      | cons a l => rw [hsd] at hlen; simp at hlen
    · have hlen := congrArg List.length hmn
      simp only [List.length_singleton, List.length_append] at hlen
      have := specDigits_ne_nil (m / 10)
      cases hsd : specDigits (m / 10) with
      | nil => exact absurd hsd this
      | cons a l => rw [hsd] at hlen; simp at hlen
    · obtain ⟨h1, h2⟩ := List.append_inj' hmn (by simp)
      simp only [List.cons.injEq] at h2
      have hdiv : m / 10 = n / 10 :=
        ih (m / 10) (Nat.div_lt_self (by omega) (by omega)) (n / 10) h1
      have hmod : m % 10 = n % 10 :=
        digitChar_inj (m % 10) (Nat.mod_lt m (by omega)) (n % 10) (Nat.mod_lt n (by omega)) h2.1
      omega

/-- The accumulator of toDigitsCore only collects the rendered digits. -/
theorem toDigitsCore_acc (b : Nat) : ∀ (fuel n : Nat) (ds : List Char),
    Nat.toDigitsCore b fuel n ds = Nat.toDigitsCore b fuel n [] ++ ds := by
  intro fuel
  induction fuel with
  | zero => intro n ds; simp [Nat.toDigitsCore]
  | succ f ih =>
    intro n ds
    simp only [Nat.toDigitsCore]
    by_cases h : n / b = 0
    · simp [h]
    · rw [if_neg h, if_neg h, ih (n / b) (Nat.digitChar (n % b) :: ds),
        ih (n / b) [Nat.digitChar (n % b)]]
      simp

/-- With enough fuel, toDigitsCore in base ten produces the decimal digit
list. -/
theorem toDigitsCore_spec : ∀ fuel n : Nat, 0 < fuel → n < 10 ^ fuel →
    Nat.toDigitsCore 10 fuel n [] = specDigits n := by
  intro fuel
  induction fuel with
  | zero => intro n h; omega
  | succ f ih =>
    intro n _ hn
    simp only [Nat.toDigitsCore]
    by_cases h : n / 10 = 0
    · have hlt : n < 10 := by omega
      rw [if_pos h]
      unfold specDigits
      rw [dif_pos hlt, Nat.mod_eq_of_lt hlt]
    · have h10 : 10 ≤ n := by omega
      have hf : 0 < f := by
        rcases Nat.eq_zero_or_pos f with hf0 | hf0
        · subst hf0; simp at hn; omega
        · exact hf0
      have hdiv : n / 10 < 10 ^ f := by
        rw [pow_succ] at hn
        exact (Nat.div_lt_iff_lt_mul (by omega)).mpr hn
      rw [if_neg h, toDigitsCore_acc, ih (n / 10) hf hdiv]
      conv_rhs => rw [specDigits]
      rw [dif_neg (by omega : ¬ n < 10)]

/-- The characters of the decimal representation are the decimal digit
list. -/
theorem repr_data_eq (n : Nat) : (Nat.repr n).data = specDigits n := by
  have hlt : n < 10 ^ (n + 1) :=
    lt_of_lt_of_le (Nat.lt_pow_self (by omega) n)
      (Nat.pow_le_pow_right (by omega) (by omega))
  show (Nat.toDigits 10 n).asString.data = specDigits n
  unfold Nat.toDigits
  rw [toDigitsCore_spec (n + 1) n (by omega) hlt]
  rfl

/-- Decimal representations are injective. -/
theorem repr_inj {m n : Nat} (h : Nat.repr m = Nat.repr n) : m = n :=
  specDigits_inj m n (by rw [← repr_data_eq, ← repr_data_eq, h])

/-- The decimal representation contains no slash. -/
theorem repr_no_slash (n : Nat) : ('/' : Char) ∉ (Nat.repr n).data := by
  rw [repr_data_eq]
  intro hmem
  have := specDigits_isDigit n _ hmem
  exact absurd this (by decide)

/-- The decimal representation contains no underscore. -/
theorem repr_no_underscore (n : Nat) : ('_' : Char) ∉ (Nat.repr n).data := by
  rw [repr_data_eq]
  intro hmem
  have := specDigits_isDigit n _ hmem
  exact absurd this (by decide)

/-- Splitting at a separator absent from both prefixes is unambiguous. -/
theorem append_sep_inj {sep : Char} : ∀ (a b r s : List Char), sep ∉ a → sep ∉ b →
    a ++ sep :: r = b ++ sep :: s → a = b ∧ r = s := by
  intro a
  induction a with
  | nil =>
    intro b r s _ hb h
    cases b with
    | nil => simpa using h
    | cons c bs =>
      simp only [List.nil_append, List.cons_append, List.cons.injEq] at h
      exact absurd (h.1 ▸ List.mem_cons_self c bs) hb
  | cons x xs ih =>
    intro b r s ha hb h
    cases b with
    | nil =>
      simp only [List.nil_append, List.cons_append, List.cons.injEq] at h
      exact absurd (h.1 ▸ List.mem_cons_self x xs) (h.1 ▸ ha)
    | cons y ys =>
      simp only [List.cons_append, List.cons.injEq] at h
      obtain ⟨h1, h2⟩ := h
      have hrec := ih ys r s (fun hm => ha (List.mem_cons_of_mem x hm))
        (fun hm => hb (List.mem_cons_of_mem y hm)) h2
      exact ⟨by rw [h1, hrec.1], hrec.2⟩

/-- The character list underlying an assembled object name. -/
theorem gcs_data (u : String) (s c t : Nat) (f : String) :
    (gcsFileName u s c t f).data =
      u.data ++ '/' :: ((Nat.repr s).data ++ '/' :: ((Nat.repr c).data ++ '/' ::
        ((Nat.repr t).data ++ '_' :: f.data))) := by
  simp [gcsFileName, String.data_append]

/-- Object names determine their components when the user id is
slash-free: the numeric segments are digit-only and self-delimiting. -/
theorem gcsFileName_inj {u₁ u₂ : String} {s₁ s₂ c₁ c₂ t₁ t₂ : Nat} {f₁ f₂ : String}
    (hu₁ : ('/' : Char) ∉ u₁.data) (hu₂ : ('/' : Char) ∉ u₂.data)
    (h : gcsFileName u₁ s₁ c₁ t₁ f₁ = gcsFileName u₂ s₂ c₂ t₂ f₂) :
    u₁ = u₂ ∧ s₁ = s₂ ∧ c₁ = c₂ ∧ t₁ = t₂ ∧ f₁ = f₂ := by
  have hd := congrArg String.data h
  rw [gcs_data, gcs_data] at hd
  obtain ⟨e1, hd⟩ := append_sep_inj _ _ _ _ hu₁ hu₂ hd
  obtain ⟨e2, hd⟩ := append_sep_inj _ _ _ _ (repr_no_slash s₁) (repr_no_slash s₂) hd
  obtain ⟨e3, hd⟩ := append_sep_inj _ _ _ _ (repr_no_slash c₁) (repr_no_slash c₂) hd
  obtain ⟨e4, e5⟩ := append_sep_inj _ _ _ _ (repr_no_underscore t₁) (repr_no_underscore t₂) hd
  exact ⟨String.ext e1, repr_inj (String.ext e2), repr_inj (String.ext e3),
    repr_inj (String.ext e4), String.ext e5⟩

/-- Claim C7 (amended): every stored object name is derived as the
user id, subject id, chapter id, and epoch milliseconds joined with
slashes, the last segment being the milliseconds joined to the original
filename by an underscore; provided the user id contains no slash,
distinct uploads never collide; and the returned URL is the
storage.googleapis.com URL of the bucket and object name. -/
theorem claim_C7 :
    (∀ (u₁ u₂ : String) (s₁ s₂ c₁ c₂ t₁ t₂ : Nat) (f₁ f₂ : String),
      ('/' : Char) ∉ u₁.data → ('/' : Char) ∉ u₂.data →
      (u₁, s₁, c₁, t₁, f₁) ≠ (u₂, s₂, c₂, t₂, f₂) →
      gcsFileName u₁ s₁ c₁ t₁ f₁ ≠ gcsFileName u₂ s₂ c₂ t₂ f₂)
    ∧ (∀ bucketName objectName, publicUrl bucketName objectName =
        "https://storage.googleapis.com/" ++ bucketName ++ "/" ++ objectName) := by
  refine ⟨?_, fun bucketName objectName => rfl⟩
  intro u₁ u₂ s₁ s₂ c₁ c₂ t₁ t₂ f₁ f₂ hu₁ hu₂ hne heq
  obtain ⟨e1, e2, e3, e4, e5⟩ := gcsFileName_inj hu₁ hu₂ heq
  exact hne (by rw [e1, e2, e3, e4, e5])

/-- Claim C7 counterexample: with a slash inside the interpolated user id
the object name of two distinct uploads coincides, so the naming scheme
alone does not guarantee absence of collisions. -/
theorem claim_C7_counterexample :
    gcsFileName "x" 1 2 3 "a/4/5/6_z" = gcsFileName "x/1/2/3_a" 4 5 6 "z"
    ∧ ("x", 1, 2, 3, "a/4/5/6_z") ≠ (("x/1/2/3_a" : String), 4, 5, 6, ("z" : String)) :=
  ⟨rfl, by decide⟩

/-- Claim C7 witness: two uploads of the same slash-free user differing in
the timestamp get distinct object names. -/
theorem claim_C7_witness :
    ((('/' : Char) ∉ "alice".data)
      ∧ (("alice", 1, 2, 3, "notes.pdf") ≠ (("alice" : String), 1, 2, 4, ("notes.pdf" : String))))
    ∧ gcsFileName "alice" 1 2 3 "notes.pdf" ≠ gcsFileName "alice" 1 2 4 "notes.pdf" :=
  ⟨⟨by decide, by decide⟩,
   claim_C7.1 "alice" "alice" 1 1 2 2 3 4 "notes.pdf" "notes.pdf"
     (by decide) (by decide) (by decide)⟩

end StudyBuddy
